import Mathlib

/-!
Shallow embedding of the library-catalog manager (`models.py`): the `Book`
record, the `Library` catalog operations (`add_book`, `remove_book`,
`list_books`, `find_book`, `load_books`, `save_books`, `add_book_by_isbn`),
and the surrounding Python semantics they rely on (JSON values, Python
equality, iteration, subscripting, exception classes).  The backing file is
modelled at the JSON-value level: `json.dump` followed by `json.load` is the
identity on JSON values, so the file holds either nothing, unparsable text,
or a parsed JSON value.
-/

/-- JSON values as produced by Python's `json.load` (numbers modelled as
integers; the repository only ever works with strings, objects and arrays). -/
inductive JVal : Type
  | jnull : JVal
  | jbool : Bool → JVal
  | jnum : Int → JVal
  | jstr : String → JVal
  | jarr : List JVal → JVal
  | jobj : List (String × JVal) → JVal
deriving Repr

/-- Decidable structural equality of JSON values (deriving cannot handle the
nested inductive; written so that it reduces in the kernel). -/
def JVal.decEq : (a b : JVal) → Decidable (a = b)
  | .jnull, .jnull => .isTrue rfl
  | .jbool a, .jbool b =>
      if h : a = b then .isTrue (by rw [h]) else .isFalse (fun g => h (by injection g))
  | .jnum a, .jnum b =>
      if h : a = b then .isTrue (by rw [h]) else .isFalse (fun g => h (by injection g))
  | .jstr a, .jstr b =>
      if h : a = b then .isTrue (by rw [h]) else .isFalse (fun g => h (by injection g))
  | .jarr a, .jarr b =>
      match decEqL a b with
      | .isTrue h => .isTrue (by rw [h])
      | .isFalse h => .isFalse (fun g => h (by injection g))
  | .jobj a, .jobj b =>
      match decEqKV a b with
      | .isTrue h => .isTrue (by rw [h])
      | .isFalse h => .isFalse (fun g => h (by injection g))
  | .jnull, .jbool _ => .isFalse (fun g => nomatch g)
  | .jnull, .jnum _ => .isFalse (fun g => nomatch g)
  | .jnull, .jstr _ => .isFalse (fun g => nomatch g)
  | .jnull, .jarr _ => .isFalse (fun g => nomatch g)
  | .jnull, .jobj _ => .isFalse (fun g => nomatch g)
  | .jbool _, .jnull => .isFalse (fun g => nomatch g)
  | .jbool _, .jnum _ => .isFalse (fun g => nomatch g)
  | .jbool _, .jstr _ => .isFalse (fun g => nomatch g)
  | .jbool _, .jarr _ => .isFalse (fun g => nomatch g)
  | .jbool _, .jobj _ => .isFalse (fun g => nomatch g)
  | .jnum _, .jnull => .isFalse (fun g => nomatch g)
  | .jnum _, .jbool _ => .isFalse (fun g => nomatch g)
  | .jnum _, .jstr _ => .isFalse (fun g => nomatch g)
  | .jnum _, .jarr _ => .isFalse (fun g => nomatch g)
  | .jnum _, .jobj _ => .isFalse (fun g => nomatch g)
  | .jstr _, .jnull => .isFalse (fun g => nomatch g)
  | .jstr _, .jbool _ => .isFalse (fun g => nomatch g)
  | .jstr _, .jnum _ => .isFalse (fun g => nomatch g)
  | .jstr _, .jarr _ => .isFalse (fun g => nomatch g)
  | .jstr _, .jobj _ => .isFalse (fun g => nomatch g)
  | .jarr _, .jnull => .isFalse (fun g => nomatch g)
  | .jarr _, .jbool _ => .isFalse (fun g => nomatch g)
  | .jarr _, .jnum _ => .isFalse (fun g => nomatch g)
  | .jarr _, .jstr _ => .isFalse (fun g => nomatch g)
  | .jarr _, .jobj _ => .isFalse (fun g => nomatch g)
  | .jobj _, .jnull => .isFalse (fun g => nomatch g)
  | .jobj _, .jbool _ => .isFalse (fun g => nomatch g)
  | .jobj _, .jnum _ => .isFalse (fun g => nomatch g)
  | .jobj _, .jstr _ => .isFalse (fun g => nomatch g)
  | .jobj _, .jarr _ => .isFalse (fun g => nomatch g)
where
  decEqL : (a b : List JVal) → Decidable (a = b)
    | [], [] => .isTrue rfl
    | x :: xs, y :: ys =>
        match JVal.decEq x y with
        | .isFalse h => .isFalse (fun g => by injection g with hh ht; exact h hh)
        | .isTrue h1 =>
            match decEqL xs ys with
            | .isTrue h2 => .isTrue (by rw [h1, h2])
            | .isFalse h2 => .isFalse (fun g => by injection g with hh ht; exact h2 ht)
    | [], _ :: _ => .isFalse (fun g => nomatch g)
    | _ :: _, [] => .isFalse (fun g => nomatch g)
  decEqKV : (a b : List (String × JVal)) → Decidable (a = b)
    | [], [] => .isTrue rfl
    | (k, v) :: xs, (l, w) :: ys =>
        if hk : k = l then
          match JVal.decEq v w with
          | .isFalse h => .isFalse (fun g => by
              injection g with hh ht
              injection hh with hk1 hv1
              exact h hv1)
          | .isTrue h1 =>
              match decEqKV xs ys with
              | .isTrue h2 => .isTrue (by rw [hk, h1, h2])
              | .isFalse h2 => .isFalse (fun g => by injection g with hh ht; exact h2 ht)
        else
          .isFalse (fun g => by
            injection g with hh ht
            injection hh with hk1 hv1
            exact hk hk1)
    | [], _ :: _ => .isFalse (fun g => nomatch g)
    | _ :: _, [] => .isFalse (fun g => nomatch g)

instance : DecidableEq JVal := JVal.decEq

deriving instance DecidableEq for Except

/-- Python `==` on the modelled values.  `True == 1` holds in Python, hence
the boolean/number cross cases.  Dicts produced by `json.load` have distinct
keys; their comparison is modelled as ordered pointwise comparison, which
agrees with Python on every value this program ever compares (the catalog
only compares ISBN fields). -/
def pyEq : JVal → JVal → Bool
  | .jnull, .jnull => true
  | .jbool a, .jbool b => a == b
  | .jbool a, .jnum n => n == (if a then (1 : Int) else 0)
  | .jnum n, .jbool a => n == (if a then (1 : Int) else 0)
  | .jnum a, .jnum b => a == b
  | .jstr a, .jstr b => a == b
  | .jarr a, .jarr b => pyEqL a b
  | .jobj a, .jobj b => pyEqKV a b
  | _, _ => false
where
  pyEqL : List JVal → List JVal → Bool
    | [], [] => true
    | x :: xs, y :: ys => pyEq x y && pyEqL xs ys
    | _, _ => false
  pyEqKV : List (String × JVal) → List (String × JVal) → Bool
    | [], [] => true
    | (k, v) :: xs, (l, w) :: ys => k == l && pyEq v w && pyEqKV xs ys
    | _, _ => false

/-- `Book.__init__` stores its three arguments unchecked; Python does not
enforce the `str` type hints, so the fields hold arbitrary values (this
matters for `load_books`, which stores whatever the JSON file held). -/
structure Book where
  title : JVal
  author : JVal
  isbn : JVal
deriving Repr, DecidableEq

/-- `Book.to_dict`: the dict with exactly the keys title, author, isbn,
in that insertion order. -/
def Book.to_dict (b : Book) : JVal :=
  .jobj [("title", b.title), ("author", b.author), ("isbn", b.isbn)]

/-- State of the backing JSON file. -/
inductive FileState : Type
  | absent : FileState
  | invalid : FileState
  | val : JVal → FileState
deriving Repr, DecidableEq

/-- The `Library` object's state: the in-memory list `self.books`, the
backing file's content, and whether the file can be opened for writing
(`save_books` raises `IOError` exactly when it cannot). -/
structure LibState where
  books : List Book
  file : FileState
  writable : Bool
deriving Repr, DecidableEq

/-- The Python exceptions the catalog code raises, one constructor per
raise site in `models.py`. -/
inductive PyErr : Type
  | duplicateISBN : JVal → PyErr
  | notFoundISBN : String → PyErr
  | invalidFormat : PyErr
  | saveFailed : PyErr
  | timeoutErr : PyErr
  | connectFailed : PyErr
  | httpErr : Nat → PyErr
  | unexpected : PyErr
  | typeError : PyErr
deriving Repr, DecidableEq

/-- The Python exception class of each raised error. -/
inductive PyClass : Type
  | valueError : PyClass
  | ioError : PyClass
  | connectionError : PyClass
  | typeErrorClass : PyClass
deriving Repr, DecidableEq

/-- Which Python class each modelled exception belongs to. -/
def errClass : PyErr → PyClass
  | .duplicateISBN _ => .valueError
  | .notFoundISBN _ => .valueError
  | .invalidFormat => .valueError
  | .saveFailed => .ioError
  | .timeoutErr => .connectionError
  | .connectFailed => .connectionError
  | .httpErr _ => .connectionError
  | .unexpected => .connectionError
  | .typeError => .typeErrorClass

/-- Lookup in a parsed JSON object (Python dict from `json.load`; keys are
distinct, so first match is the match). -/
def jsonGet (kvs : List (String × JVal)) (k : String) : Option JVal :=
  (kvs.find? (fun kv => kv.1 == k)).map (·.2)

/-- Errors arising while `load_books` builds the record list; `decodeErr`
and `keyErr` are caught by its `except` clause, `typeErr` is not. -/
inductive LoadErr : Type
  | keyErr : LoadErr
  | typeErr : LoadErr
deriving Repr, DecidableEq

/-- Python iteration over a JSON value: lists yield elements, strings yield
one-character strings, dicts yield their keys; other values raise
`TypeError`. -/
def pyIter : JVal → Except LoadErr (List JVal)
  | .jarr l => .ok l
  | .jstr s => .ok (s.toList.map (fun c => .jstr (String.mk [c])))
  | .jobj kvs => .ok (kvs.map (fun kv => .jstr kv.1))
  | _ => .error .typeErr

/-- Python subscripting `v[k]` with a string key: only dicts support it
(`KeyError` when the key is missing); any other value raises `TypeError`. -/
def pySubscript (v : JVal) (k : String) : Except LoadErr JVal :=
  match v with
  | .jobj kvs =>
      match jsonGet kvs k with
      | some w => .ok w
      | none => .error .keyErr
  | _ => .error .typeErr

/-- The list comprehension in `load_books`: iterate the parsed value and
build a `Book` from each element's three subscripted fields, failing at the
first error. -/
def parseBooks (v : JVal) : Except LoadErr (List Book) := do
  let items ← pyIter v
  items.mapM (fun it => do
    let t ← pySubscript it "title"
    let a ← pySubscript it "author"
    let i ← pySubscript it "isbn"
    pure ⟨t, a, i⟩)

/-- `Library.load_books`: a missing file means an empty list; an unparsable
file (`json.JSONDecodeError`) and a missing record field (`KeyError`) are
caught and also yield an empty list; a `TypeError` (value not iterable, or
an element that is not a dict) is not in the `except` tuple and
propagates. -/
def load_books (fs : FileState) : Except PyErr (List Book) :=
  match fs with
  | .absent => .ok []
  | .invalid => .ok []
  | .val v =>
      match parseBooks v with
      | .ok bs => .ok bs
      | .error .keyErr => .ok []
      | .error .typeErr => .error .typeError

/-- `Library.save_books`: rewrites the file with the JSON array of
`to_dict`s, or raises `IOError` when the file cannot be written. -/
def save_books (s : LibState) : LibState × Option PyErr :=
  if s.writable then
    ({ s with file := .val (.jarr (s.books.map Book.to_dict)) }, none)
  else
    (s, some .saveFailed)

/-- `Library.find_book`: linear scan comparing each record's `isbn` field
with the needle using Python `==`; first match or `None`. -/
def find_book (isbn : JVal) (books : List Book) : Option Book :=
  books.find? (fun b => pyEq b.isbn isbn)

/-- `Library.list_books`: `self.books.copy()` — at the value level the
returned sequence equals the stored one (the aliasing structure of the
shallow copy is modelled separately by `ObjHeap`). -/
def list_books (s : LibState) : List Book :=
  s.books

/-- `Library.add_book`: duplicate-ISBN check via `find_book`, then append
and save.  The append happens before the save, so a failing save leaves the
new record in memory. -/
def add_book (b : Book) (s : LibState) : LibState × Option PyErr :=
  if (find_book b.isbn s.books).isSome then
    (s, some (.duplicateISBN b.isbn))
  else
    save_books { s with books := s.books ++ [b] }

/-- The loop in `remove_book`: drop the first record whose `isbn` field
Python-equals the needle, or `none` when no record matches. -/
def removeFirst (p : Book → Bool) : List Book → Option (List Book)
  | [] => none
  | b :: bs => if p b then some bs else (removeFirst p bs).map (b :: ·)

/-- `Library.remove_book`: pop the first matching record and save (a
failing save raises after the pop); return `False` without saving when no
record matches. -/
def remove_book (isbn : String) (s : LibState) : LibState × Except PyErr Bool :=
  match removeFirst (fun b => pyEq b.isbn (.jstr isbn)) s.books with
  | none => (s, .ok false)
  | some bs =>
      match save_books { s with books := bs } with
      | (s', none) => (s', .ok true)
      | (s', some e) => (s', .error e)

/-- `Library.__init__`: store the filename, start with `[]`, run
`load_books`.  A `TypeError` escaping `load_books` aborts construction. -/
def Library.init (fs : FileState) (w : Bool) : Except PyErr LibState :=
  match load_books fs with
  | .ok bs => .ok { books := bs, file := fs, writable := w }
  | .error e => .error e

/-! ## The lookup client (`add_book_by_isbn`)

The remote service is modelled as the outcomes of the HTTP requests the
method can issue: the one book request for the given ISBN, and one author
request per `key` value. -/

/-- An HTTP response: a status code and the result of `.json()` on the body
(`none` models a body that raises `json.JSONDecodeError`). -/
structure HttpResponse where
  status : Nat
  body : Option JVal
deriving Repr, DecidableEq

/-- Outcome of one `client.get` call: a response, or an `httpx` network
error. -/
inductive NetResult : Type
  | resp : HttpResponse → NetResult
  | timeout : NetResult
  | connectError : NetResult
deriving Repr

/-- The remote service as seen by one `add_book_by_isbn` call. -/
structure World where
  bookLookup : NetResult
  authorLookup : JVal → NetResult

/-- The author loop of `add_book_by_isbn` (lines 95–103): for each entry of
the `authors` array that is a dict with a `key`, fetch the author resource.
A 200 response contributes `name` (default `"Unknown Author"`); any other
status is skipped.  Exceptions escape the loop into the outer `except`
clauses: a network error becomes `ConnectionError`, a 200 body that fails
`.json()` becomes the `"Invalid response format"` `ValueError`, and a 200
body that is not a dict (`.get` raises `AttributeError`) falls into the
catch-all `ConnectionError`. -/
def collectAuthors (w : World) : List JVal → Except PyErr (List JVal)
  | [] => .ok []
  | r :: rs =>
      match r with
      | .jobj kvs =>
          match jsonGet kvs "key" with
          | some key =>
              match w.authorLookup key with
              | .timeout => .error .timeoutErr
              | .connectError => .error .connectFailed
              | .resp ar =>
                  if ar.status == 200 then
                    match ar.body with
                    | none => .error .invalidFormat
                    | some (.jobj akvs) =>
                        (collectAuthors w rs).map
                          (fun rest => (jsonGet akvs "name").getD (.jstr "Unknown Author") :: rest)
                    | some _ => .error .unexpected
                  else collectAuthors w rs
          | none => collectAuthors w rs
      | _ => collectAuthors w rs

/-- Python `", ".join(authors)`: every element must be a string
(`TypeError`, which the catch-all turns into a `ConnectionError`,
otherwise). -/
def pyJoin (sep : String) : List JVal → Except PyErr String
  | [] => .ok ""
  | [.jstr s] => .ok s
  | .jstr s :: x :: xs => (pyJoin sep (x :: xs)).map (fun t => s ++ sep ++ t)
  | _ => .error .unexpected

/-- The author-name part of the response processing: absent `authors` field
means no names; otherwise iterate it (a non-iterable value raises
`TypeError` into the catch-all) and run the author loop. -/
def authorsNames (w : World) (kvs : List (String × JVal)) : Except PyErr (List JVal) :=
  match jsonGet kvs "authors" with
  | none => .ok []
  | some av =>
      match pyIter av with
      | .ok items => collectAuthors w items
      | .error _ => .error .unexpected

/-- The network-and-extraction part of `add_book_by_isbn` (lines 82–113):
everything from issuing the book request to constructing the `Book` value,
with each exception translated by the method's `except` clauses.  The 404
check precedes `raise_for_status` (non-2xx → `HTTPStatusError` →
`ConnectionError` for non-404); an unparsable body is the
`"Invalid response format"` `ValueError`; a body that is not a dict hits
the catch-all. -/
def resolveBook (isbn : String) (w : World) : Except PyErr Book :=
  match w.bookLookup with
  | .timeout => .error .timeoutErr
  | .connectError => .error .connectFailed
  | .resp r =>
      if r.status == 404 then .error (.notFoundISBN isbn)
      else if !(200 ≤ r.status && r.status ≤ 299) then .error (.httpErr r.status)
      else
        match r.body with
        | none => .error .invalidFormat
        | some (.jobj kvs) => do
            let title := (jsonGet kvs "title").getD (.jstr "Unknown Title")
            let collected ← authorsNames w kvs
            let names := if collected.isEmpty then [.jstr "Unknown Author"] else collected
            let author ← pyJoin ", " names
            .ok ⟨title, .jstr author, .jstr isbn⟩
        | some _ => .error .unexpected

/-- `Library.add_book_by_isbn`: duplicate check before any network traffic
(this `ValueError` is raised outside the `try`), then resolve the record
and hand it to `add_book`.  Inside the `try`, a `ValueError` from
`add_book` is re-raised unchanged; its `IOError` (failed save) only matches
the catch-all `except Exception` and becomes a `ConnectionError`. -/
def add_book_by_isbn (isbn : String) (w : World) (s : LibState) :
    LibState × Except PyErr Book :=
  if (find_book (.jstr isbn) s.books).isSome then
    (s, .error (.duplicateISBN (.jstr isbn)))
  else
    match resolveBook isbn w with
    | .error e => (s, .error e)
    | .ok b =>
        match add_book b s with
        | (s', none) => (s', .ok b)
        | (s', some e) =>
            (s', .error (if errClass e == .valueError then e else .unexpected))

/-! ## Object-identity model of `list_books`

`self.books.copy()` is a shallow copy: it allocates a fresh list object
holding the same `Book` object references.  To reason about what a caller
can reach by mutating the returned value, list objects and book objects
live in a heap addressed by `Nat` references. -/

/-- Heap of Python objects: list objects hold book references; book objects
hold the record values.  `listNext` is the next fresh list address. -/
structure ObjHeap where
  listNext : Nat
  lists : Nat → List Nat
  bookObjs : Nat → Book

/-- `list_books` at the object level: `self.books.copy()` allocates a fresh
list object whose elements are the same book references. -/
def list_books_obj (catRef : Nat) (h : ObjHeap) : Nat × ObjHeap :=
  (h.listNext,
   { h with
     listNext := h.listNext + 1,
     lists := fun r => if r = h.listNext then h.lists catRef else h.lists r })

/-- A caller mutating a list object it holds (clear, append, reorder …):
the list at address `r` is replaced wholesale. -/
def writeList (h : ObjHeap) (r : Nat) (v : List Nat) : ObjHeap :=
  { h with lists := fun q => if q = r then v else h.lists q }

/-- A caller mutating a `Book` object it reached (`book.title = t`). -/
def writeBookTitle (h : ObjHeap) (r : Nat) (t : JVal) : ObjHeap :=
  { h with
    bookObjs := fun q => if q = r then { h.bookObjs q with title := t } else h.bookObjs q }

/-- The record values a list object currently denotes. -/
def derefList (r : Nat) (h : ObjHeap) : List Book :=
  (h.lists r).map h.bookObjs

/-- `find_book` run against the catalog's own list object. -/
def find_book_obj (isbn : JVal) (catRef : Nat) (h : ObjHeap) : Option Book :=
  find_book isbn (derefList catRef h)

/-! ## Reachable catalog states

A state is reachable when it is produced by constructing a `Library` on some
backing file and then running any sequence of `add_book`, `remove_book` and
`add_book_by_isbn` calls (each against an arbitrary remote world).  `ReachU`
additionally requires the constructed-from file to have loaded to records
with pairwise-distinct ISBN values — `load_books` itself performs no
deduplication. -/

/-- States reachable from a construction whose load produced distinct ISBNs. -/
inductive ReachU : LibState → Prop
  | init (fs : FileState) (w : Bool) (bs : List Book) :
      load_books fs = .ok bs → (bs.map Book.isbn).Nodup →
      ReachU { books := bs, file := fs, writable := w }
  | addStep (s : LibState) (b : Book) : ReachU s → ReachU (add_book b s).1
  | removeStep (s : LibState) (isbn : String) : ReachU s → ReachU (remove_book isbn s).1
  | lookupStep (s : LibState) (isbn : String) (w : World) :
      ReachU s → ReachU (add_book_by_isbn isbn w s).1

/-! ## Spec-side formula for the resolved author string (for C9) -/

/-- Joining a list of strings with a separator, as the spec describes the
author string. -/
def joinWith (sep : String) : List String → String
  | [] => ""
  | [s] => s
  | s :: x :: xs => s ++ sep ++ joinWith sep (x :: xs)

/-- The spec's determination of the author string: the collected display
names joined with a comma-space, or the single default when none were
collected. -/
def specAuthorString (names : List String) : String :=
  if names = [] then "Unknown Author" else joinWith ", " names

/-! ## Helper lemmas -/

mutual

theorem pyEq_refl : ∀ v : JVal, pyEq v v = true
  | .jnull => rfl
  | .jbool b => by simp [pyEq]
  | .jnum n => by simp [pyEq]
  | .jstr s => by simp [pyEq]
  | .jarr l => by simp [pyEq, pyEqL_refl l]
  | .jobj l => by simp [pyEq, pyEqKV_refl l]

theorem pyEqL_refl : ∀ l : List JVal, pyEq.pyEqL l l = true
  | [] => rfl
  | x :: xs => by simp [pyEq.pyEqL, pyEq_refl x, pyEqL_refl xs]

theorem pyEqKV_refl : ∀ l : List (String × JVal), pyEq.pyEqKV l l = true
  | [] => rfl
  | (k, v) :: xs => by simp [pyEq.pyEqKV, pyEq_refl v, pyEqKV_refl xs]

end

theorem pyEq_jstr_iff (v : JVal) (s : String) : pyEq v (.jstr s) = true ↔ v = .jstr s := by
  cases v <;> simp [pyEq]

theorem save_books_fst_books (s : LibState) : (save_books s).1.books = s.books := by
  unfold save_books
  split <;> rfl

theorem find_book_eq_none_iff (n : JVal) (books : List Book) :
    find_book n books = none ↔ ∀ b ∈ books, pyEq b.isbn n = false := by
  simp [find_book, List.find?_eq_none]

theorem removeFirst_eq_none (p : Book → Bool) :
    ∀ l : List Book, (∀ b ∈ l, p b = false) → removeFirst p l = none := by
  intro l h
  induction l with
  | nil => rfl
  | cons a l ih =>
      have ha := h a (by simp)
      simp [removeFirst, ha, ih (fun b hb => h b (by simp [hb]))]

theorem removeFirst_of_find?_some (p : Book → Bool) :
    ∀ (l : List Book) (b : Book), l.find? p = some b →
      ∃ l1 l2, l = l1 ++ b :: l2 ∧ (∀ x ∈ l1, p x = false) ∧
        removeFirst p l = some (l1 ++ l2) := by
  intro l
  induction l with
  | nil => intro b h; simp [List.find?] at h
  | cons a l ih =>
      intro b h
      by_cases hp : p a = true
      · refine ⟨[], l, ?_, by simp, ?_⟩
        · simp [List.find?_cons, hp] at h
          simp [h]
        · simp [removeFirst, hp]
      · have hp' : p a = false := by simpa using hp
        rw [List.find?_cons, hp'] at h
        obtain ⟨l1, l2, hl, hfa, hrm⟩ := ih b h
        refine ⟨a :: l1, l2, by simp [hl], ?_, by simp [removeFirst, hp', hrm]⟩
        intro x hx
        rcases List.mem_cons.mp hx with h1 | h2
        · rw [h1]; exact hp'
        · exact hfa x h2

/-! ## Claim theorems -/

/-- C2: for every catalog state with a working backing file and every book:
if a record with the same isbn already exists, `add_book` raises the
duplicate-ISBN `ValueError` and the state (records and file) is exactly the
one before the call; otherwise it appends the record at the end — earlier
records unchanged, insertion order preserved — and persists the full
sequence to the backing file. -/
theorem add_book_spec (b : Book) (s : LibState) (hw : s.writable = true) :
    ((find_book b.isbn s.books).isSome →
        add_book b s = (s, some (PyErr.duplicateISBN b.isbn)))
    ∧ (find_book b.isbn s.books = none →
        add_book b s =
          ({ books := s.books ++ [b],
             file := .val (.jarr ((s.books ++ [b]).map Book.to_dict)),
             writable := true }, none)) := by
  constructor
  · intro h
    simp [add_book, h]
  · intro h
    simp [add_book, h, save_books, hw]

/-- Witness for C2 at a concrete catalog and book. -/
theorem add_book_spec_witness :
    add_book ⟨.jstr "T", .jstr "A", .jstr "I"⟩
        ⟨[⟨.jstr "U", .jstr "V", .jstr "J"⟩], .absent, true⟩ =
      (⟨[⟨.jstr "U", .jstr "V", .jstr "J"⟩, ⟨.jstr "T", .jstr "A", .jstr "I"⟩],
        .val (.jarr [.jobj [("title", .jstr "U"), ("author", .jstr "V"), ("isbn", .jstr "J")],
                     .jobj [("title", .jstr "T"), ("author", .jstr "A"), ("isbn", .jstr "I")]]),
        true⟩, none) :=
  (add_book_spec ⟨.jstr "T", .jstr "A", .jstr "I"⟩
      ⟨[⟨.jstr "U", .jstr "V", .jstr "J"⟩], .absent, true⟩ rfl).2 (by decide)

/-- C3 counterexample: the file contains `42` — syntactically valid JSON
that is not a sequence of objects — and `load_books` raises an uncaught
`TypeError` instead of yielding an empty catalog. -/
theorem load_books_nonsequence_cex :
    load_books (.val (.jnum 42)) = .error PyErr.typeError ∧
    load_books (.val (.jnum 42)) ≠ .ok [] := by decide

/-- C3 (amended): a missing file, a syntactically invalid file, and valid
JSON whose record parsing fails with a missing required field (`KeyError`)
all yield an empty catalog without raising; but valid JSON whose parsing
fails with a `TypeError` (the content is not a sequence of objects) raises,
because `TypeError` is not in the caught exception tuple. -/
theorem load_books_recovery :
    load_books .absent = .ok [] ∧
    load_books .invalid = .ok [] ∧
    (∀ v, parseBooks v = .error .keyErr → load_books (.val v) = .ok []) ∧
    (∀ v, parseBooks v = .error .typeErr → load_books (.val v) = .error PyErr.typeError) := by
  refine ⟨rfl, rfl, ?_, ?_⟩ <;> intro v h <;> simp [load_books, h]

/-- Witness for C3 at a record missing its `isbn` field. -/
theorem load_books_recovery_witness :
    load_books (.val (.jarr [.jobj [("title", .jstr "T"), ("author", .jstr "A")]])) = .ok [] :=
  load_books_recovery.2.2.1 (.jarr [.jobj [("title", .jstr "T"), ("author", .jstr "A")]])
    (by decide)

theorem mapM_parse_to_dict : ∀ books : List Book,
    List.mapM (fun it => do
      let t ← pySubscript it "title"
      let a ← pySubscript it "author"
      let i ← pySubscript it "isbn"
      pure (⟨t, a, i⟩ : Book)) (books.map Book.to_dict) = .ok books := by
  intro books
  induction books with
  | nil => rfl
  | cons b bs ih =>
      rw [List.map_cons, List.mapM_cons]
      rw [show pySubscript b.to_dict "title" = .ok b.title by
            simp [pySubscript, Book.to_dict, jsonGet],
          show pySubscript b.to_dict "author" = .ok b.author by
            simp [pySubscript, Book.to_dict, jsonGet],
          show pySubscript b.to_dict "isbn" = .ok b.isbn by
            simp [pySubscript, Book.to_dict, jsonGet],
          ih]
      rfl

/-- C5: persisting any sequence of records with string fields (the file
content `save_books` writes) and loading it back yields the same sequence —
same count, same field values, same order. -/
theorem save_load_roundtrip (books : List Book)
    (h : ∀ b ∈ books, (∃ t, b.title = .jstr t) ∧ (∃ a, b.author = .jstr a) ∧
        (∃ i, b.isbn = .jstr i)) :
    load_books (.val (.jarr (books.map Book.to_dict))) = .ok books := by
  have hparse : parseBooks (.jarr (books.map Book.to_dict)) = .ok books :=
    mapM_parse_to_dict books
  simp [load_books, hparse]

/-- Witness for C5 at a concrete two-record sequence. -/
theorem save_load_roundtrip_witness :
    load_books (.val (.jarr (List.map Book.to_dict
        [⟨.jstr "T", .jstr "A", .jstr "I"⟩, ⟨.jstr "U", .jstr "V", .jstr "J"⟩]))) =
      .ok [⟨.jstr "T", .jstr "A", .jstr "I"⟩, ⟨.jstr "U", .jstr "V", .jstr "J"⟩] :=
  save_load_roundtrip [⟨.jstr "T", .jstr "A", .jstr "I"⟩, ⟨.jstr "U", .jstr "V", .jstr "J"⟩]
    (by
      intro b hb
      rcases List.mem_cons.mp hb with h1 | h2
      · exact ⟨⟨"T", by rw [h1]⟩, ⟨"A", by rw [h1]⟩, ⟨"I", by rw [h1]⟩⟩
      · have h3 : b = ⟨.jstr "U", .jstr "V", .jstr "J"⟩ := by simpa using h2
        exact ⟨⟨"U", by rw [h3]⟩, ⟨"V", by rw [h3]⟩, ⟨"J", by rw [h3]⟩⟩)

/-- C6: on a catalog whose records have distinct ISBNs and whose backing
file is writable: removing a present ISBN returns `True`, removes exactly
that record (the rest unchanged, in order), and a subsequent `find_book` on
that ISBN returns `None`; removing an absent ISBN returns `False` — not an
error — and leaves the state untouched. -/
theorem remove_book_spec (isbn : String) (s : LibState) (hw : s.writable = true)
    (hnd : (s.books.map Book.isbn).Nodup) :
    (find_book (.jstr isbn) s.books = none →
        remove_book isbn s = (s, .ok false))
    ∧ (∀ b, find_book (.jstr isbn) s.books = some b →
        (remove_book isbn s).2 = .ok true ∧
        (∃ l1 l2, s.books = l1 ++ b :: l2 ∧ (remove_book isbn s).1.books = l1 ++ l2) ∧
        find_book (.jstr isbn) (remove_book isbn s).1.books = none) := by
  constructor
  · intro h
    have hrm : removeFirst (fun b => pyEq b.isbn (.jstr isbn)) s.books = none := by
      apply removeFirst_eq_none
      intro b hb
      exact (find_book_eq_none_iff _ _).mp h b hb
    simp [remove_book, hrm]
  · intro b hb
    obtain ⟨l1, l2, hl, hfa, hrm⟩ :=
      removeFirst_of_find?_some (fun x => pyEq x.isbn (.jstr isbn)) s.books b hb
    have hb' : List.find? (fun x => pyEq x.isbn (.jstr isbn)) s.books = some b := hb
    have hp : pyEq b.isbn (.jstr isbn) = true := by
      have hq := List.find?_some hb'
      simpa using hq
    have hbisbn : b.isbn = .jstr isbn := (pyEq_jstr_iff _ _).mp hp
    have hstate : remove_book isbn s =
        ({ books := l1 ++ l2,
           file := .val (.jarr ((l1 ++ l2).map Book.to_dict)),
           writable := true }, .ok true) := by
      simp [remove_book, hrm, save_books, hw]
    have key : ∀ x ∈ l1 ++ l2, x.isbn ≠ b.isbn := by
      intro x hx heq
      rw [hl, List.map_append, List.map_cons] at hnd
      rcases List.mem_append.mp hx with h1 | h2
      · have hmem : b.isbn ∈ l1.map Book.isbn :=
          heq ▸ List.mem_map_of_mem Book.isbn h1
        exact (List.nodup_append.mp hnd).2.2 hmem (List.mem_cons_self _ _)
      · have hcons := (List.nodup_append.mp hnd).2.1
        have hmem : b.isbn ∈ l2.map Book.isbn :=
          heq ▸ List.mem_map_of_mem Book.isbn h2
        exact (List.nodup_cons.mp hcons).1 hmem
    refine ⟨by rw [hstate], ⟨l1, l2, hl, by rw [hstate]⟩, ?_⟩
    rw [hstate]
    apply (find_book_eq_none_iff _ _).mpr
    intro x hx
    cases hpe : pyEq x.isbn (.jstr isbn) with
    | false => rfl
    | true =>
        have hxisbn : x.isbn = .jstr isbn := (pyEq_jstr_iff _ _).mp hpe
        exact absurd (hxisbn.trans hbisbn.symm) (key x hx)

/-- Witness for C6 at a one-record catalog and its own ISBN. -/
theorem remove_book_spec_witness :
    (remove_book "I" ⟨[⟨.jstr "T", .jstr "A", .jstr "I"⟩], .absent, true⟩).2 = .ok true ∧
    find_book (.jstr "I")
        (remove_book "I" ⟨[⟨.jstr "T", .jstr "A", .jstr "I"⟩], .absent, true⟩).1.books = none := by
  have h := (remove_book_spec "I" ⟨[⟨.jstr "T", .jstr "A", .jstr "I"⟩], .absent, true⟩
      rfl (by decide)).2 ⟨.jstr "T", .jstr "A", .jstr "I"⟩ (by decide)
  exact ⟨h.1, h.2.2⟩

/-- C7: when no record with the ISBN is present and the remote book lookup
responds with status 404, `add_book_by_isbn` fails with the not-found
`ValueError` carrying the requested ISBN and the state — records and file —
is exactly the state before the call: nothing is added, nothing persisted. -/
theorem lookup_404_spec (isbn : String) (w : World) (s : LibState) (r : HttpResponse)
    (hfind : find_book (.jstr isbn) s.books = none)
    (hb : w.bookLookup = .resp r) (h404 : r.status = 404) :
    add_book_by_isbn isbn w s = (s, .error (.notFoundISBN isbn)) := by
  simp [add_book_by_isbn, hfind, resolveBook, hb, h404]

/-- Witness for C7 at an empty catalog and a 404 world. -/
theorem lookup_404_spec_witness :
    add_book_by_isbn "I" ⟨.resp ⟨404, none⟩, fun _ => .timeout⟩ ⟨[], .absent, true⟩ =
      (⟨[], .absent, true⟩, .error (.notFoundISBN "I")) :=
  lookup_404_spec "I" ⟨.resp ⟨404, none⟩, fun _ => .timeout⟩ ⟨[], .absent, true⟩
    ⟨404, none⟩ rfl rfl rfl

/-- C4 counterexample: the book lookup succeeds with one author reference,
the follow-up author request times out, and — far from being silently
skipped — the timeout escapes the author loop and fails the whole
operation with a `ConnectionError`. -/
theorem author_network_error_cex :
    (add_book_by_isbn "I"
        ⟨.resp ⟨200, some (.jobj [("title", .jstr "T"),
            ("authors", .jarr [.jobj [("key", .jstr "/authors/A1")]])])⟩,
         fun _ => .timeout⟩ ⟨[], .absent, true⟩).2 = .error PyErr.timeoutErr ∧
    errClass PyErr.timeoutErr = PyClass.connectionError := by decide

/-- C4 (amended): an author entry whose follow-up request returns a
non-success status is silently skipped — no placeholder, no effect on the
rest of the loop; but a network-level failure of the follow-up (timeout or
connection error) propagates out of the loop, and with it the whole
`add_book_by_isbn` call fails. -/
theorem author_failure_spec :
    (∀ (w : World) (kvs : List (String × JVal)) (k : JVal) (rs : List JVal)
        (ar : HttpResponse), jsonGet kvs "key" = some k → w.authorLookup k = .resp ar →
        (ar.status == 200) = false →
        collectAuthors w (.jobj kvs :: rs) = collectAuthors w rs)
    ∧ (∀ (w : World) (kvs : List (String × JVal)) (k : JVal) (rs : List JVal),
        jsonGet kvs "key" = some k → w.authorLookup k = .timeout →
        collectAuthors w (.jobj kvs :: rs) = .error PyErr.timeoutErr)
    ∧ (∀ (w : World) (kvs : List (String × JVal)) (k : JVal) (rs : List JVal),
        jsonGet kvs "key" = some k → w.authorLookup k = .connectError →
        collectAuthors w (.jobj kvs :: rs) = .error PyErr.connectFailed)
    ∧ (∀ (isbn : String) (w : World) (s : LibState) (bkvs : List (String × JVal))
        (st : Nat) (e : PyErr), find_book (.jstr isbn) s.books = none →
        w.bookLookup = .resp ⟨st, some (.jobj bkvs)⟩ →
        (st == 404) = false → (200 ≤ st && st ≤ 299) = true →
        authorsNames w bkvs = .error e →
        add_book_by_isbn isbn w s = (s, .error e)) := by
  refine ⟨?_, ?_, ?_, ?_⟩
  · intro w kvs k rs ar hk hl hst
    simp [collectAuthors, hk, hl, hst]
  · intro w kvs k rs hk hl
    simp [collectAuthors, hk, hl]
  · intro w kvs k rs hk hl
    simp [collectAuthors, hk, hl]
  · intro isbn w s bkvs st e hfind hb h404 hok herr
    simp [add_book_by_isbn, hfind, resolveBook, hb, h404, hok, herr]
    rfl

/-- Witness for C4 (amended) at concrete worlds: a 404 author follow-up is
skipped, a timed-out one fails the operation. -/
theorem author_failure_spec_witness :
    collectAuthors ⟨.timeout, fun _ => .resp ⟨404, none⟩⟩
        [.jobj [("key", .jstr "/authors/A1")]] = .ok [] ∧
    add_book_by_isbn "I"
        ⟨.resp ⟨200, some (.jobj [("title", .jstr "T"),
            ("authors", .jarr [.jobj [("key", .jstr "/authors/A1")]])])⟩,
         fun _ => .timeout⟩ ⟨[], .absent, true⟩ =
      (⟨[], .absent, true⟩, .error PyErr.timeoutErr) := by
  constructor
  · exact author_failure_spec.1 ⟨.timeout, fun _ => .resp ⟨404, none⟩⟩
      [("key", .jstr "/authors/A1")] (.jstr "/authors/A1") [] ⟨404, none⟩
      (by decide) rfl (by decide)
  · exact author_failure_spec.2.2.2 "I"
      ⟨.resp ⟨200, some (.jobj [("title", .jstr "T"),
          ("authors", .jarr [.jobj [("key", .jstr "/authors/A1")]])])⟩,
       fun _ => .timeout⟩ ⟨[], .absent, true⟩
      [("title", .jstr "T"), ("authors", .jarr [.jobj [("key", .jstr "/authors/A1")]])]
      200 PyErr.timeoutErr rfl rfl (by decide) (by decide) (by decide)

theorem except_bind_ok {ε α β : Type} (x : α) (f : α → Except ε β) :
    ((Except.ok x : Except ε α) >>= f) = f x := rfl

theorem except_map_ok {ε α β : Type} (f : α → β) (x : α) :
    Except.map f (Except.ok x : Except ε α) = .ok (f x) := rfl

theorem pyJoin_map_jstr (sep : String) : ∀ names : List String, names ≠ [] →
    pyJoin sep (names.map .jstr) = .ok (joinWith sep names)
  | [], h => absurd rfl h
  | [s], _ => rfl
  | s :: x :: xs, _ => by
      have ih := pyJoin_map_jstr sep (x :: xs) (by simp)
      simp only [List.map_cons] at ih ⊢
      simp [pyJoin, joinWith, ih, except_map_ok]

/-- C9: in a successful add-by-ISBN lookup (book response in the 2xx range
with a JSON-object body, author processing yielding string names), the
resolved record has: title equal to the response's `title` field or
`"Unknown Title"` when absent; author equal to the collected names joined
with a comma-space, or the single default `"Unknown Author"` when none were
collected; and the requested ISBN. -/
theorem lookup_success_fields (isbn : String) (w : World) (s : LibState)
    (kvs : List (String × JVal)) (st : Nat) (names : List String)
    (hfind : find_book (.jstr isbn) s.books = none)
    (hw : s.writable = true)
    (hb : w.bookLookup = .resp ⟨st, some (.jobj kvs)⟩)
    (hst1 : 200 ≤ st) (hst2 : st ≤ 299)
    (hnames : authorsNames w kvs = .ok (names.map JVal.jstr)) :
    (add_book_by_isbn isbn w s).2 =
      .ok ⟨(jsonGet kvs "title").getD (.jstr "Unknown Title"),
           .jstr (specAuthorString names), .jstr isbn⟩ := by
  have h404 : (st == 404) = false := by
    simp only [beq_eq_false_iff_ne, ne_eq]
    omega
  have hok : (200 ≤ st && st ≤ 299) = true := by simp [hst1, hst2]
  have hres : resolveBook isbn w =
      .ok ⟨(jsonGet kvs "title").getD (.jstr "Unknown Title"),
           .jstr (specAuthorString names), .jstr isbn⟩ := by
    rcases names with _ | ⟨a, as⟩
    · simp only [List.map_nil] at hnames
      simp [resolveBook, hb, h404, hok, hnames, specAuthorString, except_bind_ok, pyJoin]
    · have hj := pyJoin_map_jstr ", " (a :: as) (by simp)
      simp only [List.map_cons] at hnames hj
      simp [resolveBook, hb, h404, hok, hnames, specAuthorString, except_bind_ok, hj]
  have hadd := (add_book_spec ⟨(jsonGet kvs "title").getD (.jstr "Unknown Title"),
      .jstr (specAuthorString names), .jstr isbn⟩ s hw).2 hfind
  simp [add_book_by_isbn, hfind, hres, hadd]

/-- Witness for C9 at a concrete world with two resolvable authors. -/
theorem lookup_success_fields_witness :
    (add_book_by_isbn "I"
        ⟨.resp ⟨200, some (.jobj [("title", .jstr "T"),
            ("authors", .jarr [.jobj [("key", .jstr "/authors/A1")],
                               .jobj [("key", .jstr "/authors/A2")]])])⟩,
         fun k => if k = .jstr "/authors/A1" then .resp ⟨200, some (.jobj [("name", .jstr "X")])⟩
                  else .resp ⟨200, some (.jobj [("name", .jstr "Y")])⟩⟩
        ⟨[], .absent, true⟩).2 =
      .ok ⟨.jstr "T", .jstr "X, Y", .jstr "I"⟩ :=
  lookup_success_fields "I" _ ⟨[], .absent, true⟩
    [("title", .jstr "T"),
     ("authors", .jarr [.jobj [("key", .jstr "/authors/A1")],
                        .jobj [("key", .jstr "/authors/A2")]])]
    200 ["X", "Y"] rfl rfl rfl (by decide) (by decide) (by decide)

/-- C10: when the backing file cannot be written, `add_book` on a fresh ISBN
and `remove_book` on a present ISBN both raise the save `IOError`, yet the
in-memory mutation has already happened and is not rolled back: the books
list holds the new sequence while the file keeps its old content. -/
theorem unsaved_mutation_spec (s : LibState) (b : Book) (isbn : String)
    (hw : s.writable = false) :
    (find_book b.isbn s.books = none →
        add_book b s = ({ s with books := s.books ++ [b] }, some PyErr.saveFailed) ∧
        errClass PyErr.saveFailed = PyClass.ioError)
    ∧ (∀ b0, find_book (.jstr isbn) s.books = some b0 →
        (remove_book isbn s).2 = .error PyErr.saveFailed ∧
        (remove_book isbn s).1.file = s.file ∧
        ∃ l1 l2, s.books = l1 ++ b0 :: l2 ∧ (remove_book isbn s).1.books = l1 ++ l2) := by
  constructor
  · intro h
    refine ⟨?_, rfl⟩
    simp [add_book, h, save_books, hw]
  · intro b0 hb
    obtain ⟨l1, l2, hl, hfa, hrm⟩ :=
      removeFirst_of_find?_some (fun x => pyEq x.isbn (.jstr isbn)) s.books b0 hb
    have hstate : remove_book isbn s =
        ({ s with books := l1 ++ l2 }, .error PyErr.saveFailed) := by
      simp [remove_book, hrm, save_books, hw]
    exact ⟨by rw [hstate], by rw [hstate], l1, l2, hl, by rw [hstate]⟩

/-- Witness for C10 at a one-record catalog with an unwritable file. -/
theorem unsaved_mutation_spec_witness :
    add_book ⟨.jstr "U", .jstr "V", .jstr "J"⟩
        ⟨[⟨.jstr "T", .jstr "A", .jstr "I"⟩], .val (.jarr []), false⟩ =
      (⟨[⟨.jstr "T", .jstr "A", .jstr "I"⟩, ⟨.jstr "U", .jstr "V", .jstr "J"⟩],
        .val (.jarr []), false⟩, some PyErr.saveFailed) ∧
    (remove_book "I" ⟨[⟨.jstr "T", .jstr "A", .jstr "I"⟩], .val (.jarr []), false⟩).2 =
      .error PyErr.saveFailed := by
  have h1 := (unsaved_mutation_spec ⟨[⟨.jstr "T", .jstr "A", .jstr "I"⟩], .val (.jarr []), false⟩
      ⟨.jstr "U", .jstr "V", .jstr "J"⟩ "I" rfl).1 (by decide)
  have h2 := (unsaved_mutation_spec ⟨[⟨.jstr "T", .jstr "A", .jstr "I"⟩], .val (.jarr []), false⟩
      ⟨.jstr "U", .jstr "V", .jstr "J"⟩ "I" rfl).2 ⟨.jstr "T", .jstr "A", .jstr "I"⟩ (by decide)
  exact ⟨h1.1, h2.1⟩

theorem add_book_fst_books (b : Book) (s : LibState) :
    (add_book b s).1 = s ∨
    (find_book b.isbn s.books = none ∧ (add_book b s).1.books = s.books ++ [b]) := by
  cases hfb : find_book b.isbn s.books with
  | some x =>
      left
      simp [add_book, hfb]
  | none =>
      right
      refine ⟨rfl, ?_⟩
      have h1 : add_book b s = save_books { s with books := s.books ++ [b] } := by
        simp [add_book, hfb]
      rw [h1, save_books_fst_books]

theorem uniq_add (b : Book) (s : LibState) (h : (s.books.map Book.isbn).Nodup) :
    ((add_book b s).1.books.map Book.isbn).Nodup := by
  rcases add_book_fst_books b s with h1 | ⟨hn, h2⟩
  · rw [h1]; exact h
  · rw [h2, List.map_append]
    have hnotmem : b.isbn ∉ s.books.map Book.isbn := by
      intro hmem
      obtain ⟨x, hx, hxe⟩ := List.mem_map.mp hmem
      have := (find_book_eq_none_iff _ _).mp hn x hx
      rw [hxe] at this
      rw [pyEq_refl b.isbn] at this
      exact Bool.noConfusion this
    rw [List.nodup_append]
    refine ⟨h, List.nodup_singleton _, ?_⟩
    intro x hx hxb
    have hxb' : x = b.isbn := by simpa using hxb
    exact hnotmem (hxb' ▸ hx)

theorem removeFirst_sublist (p : Book → Bool) :
    ∀ (l m : List Book), removeFirst p l = some m → m.Sublist l := by
  intro l
  induction l with
  | nil => intro m h; simp [removeFirst] at h
  | cons a l ih =>
      intro m h
      by_cases hp : p a = true
      · simp [removeFirst, hp] at h
        rw [← h]
        exact List.sublist_cons_self a l
      · have hp' : p a = false := by simpa using hp
        simp [removeFirst, hp'] at h
        obtain ⟨m', hm', hmm⟩ := h
        rw [← hmm]
        exact (ih m' hm').cons₂ a

theorem remove_book_fst_books_sublist (isbn : String) (s : LibState) :
    (remove_book isbn s).1.books.Sublist s.books := by
  cases hr : removeFirst (fun b => pyEq b.isbn (.jstr isbn)) s.books with
  | none => simp [remove_book, hr]
  | some bs =>
      have hsub := removeFirst_sublist _ _ _ hr
      have hbooks : (remove_book isbn s).1.books = bs := by
        simp only [remove_book, hr]
        cases hsv : save_books { s with books := bs } with
        | mk s' e =>
            have : s'.books = bs := by
              have := save_books_fst_books { s with books := bs }
              rw [hsv] at this
              exact this
            cases e <;> simpa
      rw [hbooks]
      exact hsub

theorem uniq_remove (isbn : String) (s : LibState) (h : (s.books.map Book.isbn).Nodup) :
    ((remove_book isbn s).1.books.map Book.isbn).Nodup :=
  h.sublist ((remove_book_fst_books_sublist isbn s).map Book.isbn)

theorem add_book_by_isbn_fst (isbn : String) (w : World) (s : LibState) :
    (add_book_by_isbn isbn w s).1 = s ∨
    ∃ b, (add_book_by_isbn isbn w s).1 = (add_book b s).1 := by
  cases hfb : find_book (.jstr isbn) s.books with
  | some x => left; simp [add_book_by_isbn, hfb]
  | none =>
      cases hr : resolveBook isbn w with
      | error e => left; simp [add_book_by_isbn, hfb, hr]
      | ok b =>
          right
          refine ⟨b, ?_⟩
          simp only [add_book_by_isbn, hfb, Option.isSome_none, Bool.false_eq_true, if_false, hr]
          cases hab : add_book b s with
          | mk s' e => cases e <;> simp

/-- C1 (amended): for every catalog state reachable by construction on a
backing file whose loaded records already carry pairwise-distinct ISBN
values (in particular a missing or empty file), followed by any sequence of
`add_book`, `remove_book` and `add_book_by_isbn` calls, no two records of
the in-memory sequence share an ISBN value.  (Loading itself enforces
nothing: see the counterexample.) -/
theorem isbn_unique_invariant (s : LibState) (h : ReachU s) :
    (s.books.map Book.isbn).Nodup := by
  induction h with
  | init fs w bs hload hnd => exact hnd
  | addStep s b hs ih => exact uniq_add b s ih
  | removeStep s isbn hs ih => exact uniq_remove isbn s ih
  | lookupStep s isbn w hs ih =>
      rcases add_book_by_isbn_fst isbn w s with h1 | ⟨b, h2⟩
      · rw [h1]; exact ih
      · rw [h2]; exact uniq_add b s ih

/-- C1 counterexample: constructing a `Library` on a file holding two
records with the same ISBN succeeds and yields an in-memory sequence in
which the ISBN `"X"` occurs twice — load performs no uniqueness check. -/
theorem isbn_unique_cex :
    Library.init (.val (.jarr
        [.jobj [("title", .jstr "A"), ("author", .jstr "B"), ("isbn", .jstr "X")],
         .jobj [("title", .jstr "C"), ("author", .jstr "D"), ("isbn", .jstr "X")]])) true =
      .ok ⟨[⟨.jstr "A", .jstr "B", .jstr "X"⟩, ⟨.jstr "C", .jstr "D", .jstr "X"⟩],
           .val (.jarr
        [.jobj [("title", .jstr "A"), ("author", .jstr "B"), ("isbn", .jstr "X")],
         .jobj [("title", .jstr "C"), ("author", .jstr "D"), ("isbn", .jstr "X")]]), true⟩ ∧
    ¬ (([⟨.jstr "A", .jstr "B", .jstr "X"⟩,
         ⟨.jstr "C", .jstr "D", .jstr "X"⟩] : List Book).map Book.isbn).Nodup := by
  constructor
  · decide
  · decide

/-- Witness for C1 (amended) at the state constructed from a missing file. -/
theorem isbn_unique_invariant_witness :
    ((LibState.mk [] .absent true).books.map Book.isbn).Nodup :=
  isbn_unique_invariant ⟨[], .absent, true⟩ (ReachU.init .absent true [] rfl (by simp))

/-- C8 (amended): `list_books` returns a fresh list object — mutating the
returned sequence itself leaves the catalog's records, and hence every
subsequent `find_book`/list result, unchanged — but the copy is shallow:
the returned list holds the very same `Book` object references as the
catalog's own list (so mutating a contained record is visible to the
catalog, see the counterexample). -/
theorem list_books_copy_spec (catRef : Nat) (h : ObjHeap) (hvalid : catRef < h.listNext) :
    (list_books_obj catRef h).1 ≠ catRef ∧
    (list_books_obj catRef h).2.lists (list_books_obj catRef h).1 = h.lists catRef ∧
    (∀ v, derefList catRef
        (writeList (list_books_obj catRef h).2 (list_books_obj catRef h).1 v) =
        derefList catRef h) ∧
    (∀ v isbn, find_book_obj isbn catRef
        (writeList (list_books_obj catRef h).2 (list_books_obj catRef h).1 v) =
        find_book_obj isbn catRef h) := by
  have hcn : ¬ catRef = h.listNext := by omega
  have hnc : ¬ h.listNext = catRef := by omega
  refine ⟨by simpa [list_books_obj] using hnc, by simp [list_books_obj, hcn], ?_, ?_⟩
  · intro v
    simp [list_books_obj, writeList, derefList, hcn]
  · intro v isbn
    simp [list_books_obj, writeList, derefList, find_book_obj, hcn]

/-- Witness for C8 (amended) at a one-record heap: the returned list object
is a different object, and clearing it leaves the catalog's records
untouched. -/
theorem list_books_copy_spec_witness :
    (list_books_obj 0 ⟨1, fun _ => [0], fun _ => ⟨.jstr "T", .jstr "A", .jstr "I"⟩⟩).1 ≠ 0 ∧
    derefList 0 (writeList
        (list_books_obj 0 ⟨1, fun _ => [0], fun _ => ⟨.jstr "T", .jstr "A", .jstr "I"⟩⟩).2
        (list_books_obj 0 ⟨1, fun _ => [0], fun _ => ⟨.jstr "T", .jstr "A", .jstr "I"⟩⟩).1 []) =
      derefList 0 ⟨1, fun _ => [0], fun _ => ⟨.jstr "T", .jstr "A", .jstr "I"⟩⟩ := by
  have h := list_books_copy_spec 0
    ⟨1, fun _ => [0], fun _ => ⟨.jstr "T", .jstr "A", .jstr "I"⟩⟩ (by decide)
  exact ⟨h.1, h.2.2.1 []⟩

/-- C8 counterexample: the copy is shallow.  The returned list object holds
the same book reference `0`; assigning that record's `title` through the
returned copy changes what the catalog's own `find_book` subsequently
returns, so mutating a record contained in the result of `list_books` does
affect the catalog. -/
theorem list_books_shallow_cex :
    ((list_books_obj 0 ⟨1, fun _ => [0], fun _ => ⟨.jstr "T", .jstr "A", .jstr "I"⟩⟩).2.lists
        (list_books_obj 0 ⟨1, fun _ => [0], fun _ => ⟨.jstr "T", .jstr "A", .jstr "I"⟩⟩).1 = [0]) ∧
    find_book_obj (.jstr "I") 0
        (writeBookTitle
          (list_books_obj 0 ⟨1, fun _ => [0], fun _ => ⟨.jstr "T", .jstr "A", .jstr "I"⟩⟩).2
          0 (.jstr "X")) =
      some ⟨.jstr "X", .jstr "A", .jstr "I"⟩ ∧
    find_book_obj (.jstr "I") 0 ⟨1, fun _ => [0], fun _ => ⟨.jstr "T", .jstr "A", .jstr "I"⟩⟩ =
      some ⟨.jstr "T", .jstr "A", .jstr "I"⟩ ∧
    find_book_obj (.jstr "I") 0
        (writeBookTitle
          (list_books_obj 0 ⟨1, fun _ => [0], fun _ => ⟨.jstr "T", .jstr "A", .jstr "I"⟩⟩).2
          0 (.jstr "X")) ≠
      find_book_obj (.jstr "I") 0 ⟨1, fun _ => [0], fun _ => ⟨.jstr "T", .jstr "A", .jstr "I"⟩⟩ := by
  refine ⟨rfl, rfl, rfl, ?_⟩
  decide
